import Mathlib

/-!
Verification development for the dafu fraud-detection pipeline
(src/fraud_detection/src/models/anomaly_detection.py, class
IsolationForestFraudDetector).

The Python code is shallowly embedded: pandas/numpy/sklearn operations the
pipeline relies on are translated into executable Lean functions over ℚ,
String and lists.  Machine floats are modelled by ℚ together with an explicit
NpFloat wrapper that records the NaN/inf outcomes numpy division produces,
since several code paths divide by a possibly-zero score range.
-/

/-- Result of a numpy floating-point division: either a finite value or one of
the non-finite outcomes numpy produces when the divisor is zero. -/
inductive NpFloat where
  | nan : NpFloat
  | inf : NpFloat
  | ninf : NpFloat
  | val : ℚ → NpFloat
deriving DecidableEq, Repr

/-- Numpy division on finite operands: a finite quotient when the divisor is
nonzero, and NaN / inf / -inf (by the sign of the numerator) when it is zero. -/
def npDiv (a b : ℚ) : NpFloat :=
  if b = 0 then
    (if a = 0 then NpFloat.nan else if 0 < a then NpFloat.inf else NpFloat.ninf)
  else NpFloat.val (a / b)

/-- Numpy comparison x >= t for a possibly non-finite x against a finite
threshold: NaN compares False, inf compares True. -/
def npGe (x : NpFloat) (t : ℚ) : Bool :=
  match x with
  | NpFloat.val q => decide (t ≤ q)
  | NpFloat.inf => true
  | NpFloat.nan => false
  | NpFloat.ninf => false

/-- Embedding of scores.min() for a nonempty numpy array (the code only calls
it on per-batch score vectors). -/
def listMin (l : List ℚ) : ℚ := l.foldl min (l.headD 0)

/-- Embedding of scores.max() for a nonempty numpy array. -/
def listMax (l : List ℚ) : ℚ := l.foldl max (l.headD 0)

/-- Embedding of the risk-score computation of predict_stream (lines
1114-1115) and of the normalization inside _get_risk_score_predictions_stream
(lines 1147-1148), which evaluate the identical expression
(max_score - scores) / (max_score - min_score) with min_score and max_score
taken from the batch being scored. -/
def minMaxNormalize (scores : List ℚ) : List NpFloat :=
  scores.map (fun s => npDiv (listMax scores - s) (listMax scores - listMin scores))

/-- Embedding of _get_risk_score_predictions_stream (lines 1132-1151): when
use_risk_score_threshold is False the verdict is scores < 0; otherwise the
batch-normalized risk scores are compared against the stored threshold. -/
def binaryPredictionsStream (useRiskScoreThreshold : Bool) (threshold : ℚ)
    (scores : List ℚ) : List Bool :=
  if useRiskScoreThreshold then
    (minMaxNormalize scores).map (fun r => npGe r threshold)
  else
    scores.map (fun s => decide (s < 0))

/-- Number of rows flagged anomalous under the risk-threshold policy
(binary_predictions.sum() in the code). -/
def flaggedCount (threshold : ℚ) (scores : List ℚ) : ℕ :=
  (binaryPredictionsStream true threshold scores).count true

/-- Spec-side definition, stated for refinement comparison with
minMaxNormalize.  It follows the words of spec section 4.4: linear min-max
normalization (max_score - raw) / (max_score - min_score) computed with the
training-time observed min_score and max_score, clamped to [0,1]. -/
def riskScoreSpecClamped (minScore maxScore raw : ℚ) : ℚ :=
  min 1 (max 0 ((maxScore - raw) / (maxScore - minScore)))

-- Sanity checks on concrete inputs.
example : minMaxNormalize [0, 1, 2] = [NpFloat.val 1, NpFloat.val (1/2), NpFloat.val 0] := by
  simp [minMaxNormalize, listMax, listMin, npDiv]
  norm_num
example : minMaxNormalize [3, 3] = [NpFloat.nan, NpFloat.nan] := by
  simp [minMaxNormalize, listMax, listMin, npDiv]
example : binaryPredictionsStream false 0 [-1, 2] = [true, false] := by
  simp [binaryPredictionsStream]
example : flaggedCount (1/2) [0, 1, 2] = 2 := by
  simp [flaggedCount, binaryPredictionsStream, minMaxNormalize, listMax, listMin, npDiv, npGe]
  norm_num [List.count_cons]

/-!
Label encoders (sklearn.preprocessing.LabelEncoder).

LabelEncoder.fit stores classes_ = numpy.unique(values): the distinct values
in ascending lexicographic order.  transform maps each value to its index in
classes_ and raises a ValueError on a value absent from classes_.  String
order is embedded as code-point comparison of the character lists, which is
what numpy string comparison performs.
-/

/-- Code-point lexicographic comparison of character lists. -/
def charListLe : List Char → List Char → Bool
  | [], _ => true
  | _ :: _, [] => false
  | a :: as, b :: bs => if a = b then charListLe as bs else decide (a.toNat < b.toNat)

/-- Lexicographic order on strings, as numpy compares them when sorting. -/
def strLe (a b : String) : Bool := charListLe a.data b.data

/-- Insert a string into a sorted list of strings. -/
def insertStr (x : String) : List String → List String
  | [] => [x]
  | y :: ys => if strLe x y then x :: y :: ys else y :: insertStr x ys

/-- Insertion sort on strings under code-point order. -/
def sortStrings : List String → List String
  | [] => []
  | x :: xs => insertStr x (sortStrings xs)

/-- Errors the embedded code paths can raise.  The inventory holds exactly the
exception kinds the Python code produces in the embedded paths: ValueError
(sklearn shape and label checks, explicit raise statements) and
FileNotFoundError (load_model line 917).  The code defines no custom
exception class of its own. -/
inductive PyError where
  | valueError : String → PyError
  | fileNotFoundError : String → PyError
deriving DecidableEq, Repr

/-- Embedding of LabelEncoder.fit on string values: classes_ is the sorted
list of distinct values (numpy.unique). -/
def leFitClasses (vals : List String) : List String := sortStrings vals.dedup

/-- Embedding of LabelEncoder.transform: each value maps to its index in
classes_; a value absent from classes_ raises ValueError. -/
def leTransformList (classes : List String) : List String → Except PyError (List ℕ)
  | [] => Except.ok []
  | v :: vs =>
    match classes.indexOf? v with
    | none => Except.error (PyError.valueError ("y contains previously unseen labels: " ++ v))
    | some i =>
      match leTransformList classes vs with
      | Except.ok rest => Except.ok (i :: rest)
      | Except.error e => Except.error e

/-- Embedding of lines 1042-1051 of _encode_categorical_variables_stream: the
values of the batch column with every value outside the training vocabulary
replaced by classes_[0] (le.classes_ is nonempty whenever the encoder was fit
on a nonempty column; headD returns the value itself in the degenerate empty
case). -/
def replaceUnknown (classes : List String) (vals : List String) : List String :=
  vals.map (fun v => if v ∈ classes then v else classes.headD v)

/-- Embedding of the saved-encoder branch of _encode_categorical_variables_stream
(lines 1038-1054): replace unseen categories by classes_[0], then transform. -/
def encodeWithSavedEncoder (classes : List String) (vals : List String) :
    Except PyError (List ℕ) :=
  leTransformList classes (replaceUnknown classes vals)

/-- Embedding of le.fit_transform on the batch's own values (lines 1057-1058,
the branch taken when no encoder was saved for the column). -/
def freshFitTransform (vals : List String) : List ℕ :=
  vals.map (fun v => (leFitClasses vals).indexOf v)

/-- Embedding of _encode_categorical_variables_stream (lines 1037-1059) for one
categorical column: the saved encoder is used when one exists, otherwise a
brand-new encoder is fit on the batch's own values. -/
def encodeStreamColumn (encoders : List (String × List String)) (col : String)
    (vals : List String) : Except PyError (List ℕ) :=
  match encoders.lookup col with
  | some classes => encodeWithSavedEncoder classes vals
  | none => Except.ok (freshFitTransform vals)

/-- Embedding of pandas Series.mode()[0] for string values: among the values
of maximal multiplicity, the smallest in sort order (pandas sorts the mode
result); none when the list is empty. -/
def pandasModeStr (l : List String) : Option String :=
  let counts := l.dedup.map (fun v => l.count v)
  let maxCount := counts.foldl max 0
  (sortStrings (l.dedup.filter (fun v => l.count v = maxCount))).head?

/-- Embedding of pandas Series.median() over the non-null values: middle
element of the sorted values, or the mean of the two middle elements; none
(NaN) when there are no values. -/
def pandasMedian (l : List ℚ) : Option ℚ :=
  let s := List.insertionSort (· ≤ ·) l
  if s.length = 0 then none
  else if s.length % 2 = 1 then some (s.getD (s.length / 2) 0)
  else some ((s.getD (s.length / 2 - 1) 0 + s.getD (s.length / 2) 0) / 2)

/-- Embedding of the numerical branch of _handle_missing_values_stream (lines
1026-1030): when the batch column has any null, every null is filled with the
median computed from that same stream batch (data[col].median()).  The
fit-time median is not consulted; indeed save_model (lines 872-898) persists
no imputation statistics at all. -/
def fillMissingStreamNumeric (vals : List (Option ℚ)) : List (Option ℚ) :=
  if vals.any (fun v => v.isNone) then
    match pandasMedian (vals.filterMap id) with
    | none => vals
    | some m => vals.map (fun v => some (v.getD m))
  else vals

/-- Embedding of the categorical branch of _handle_missing_values_stream
(lines 1017-1025): both the if-branch and the else-branch of the Python code
evaluate the same expression data[col].mode()[0], the mode of the stream
batch itself (falling back to the first value when the mode is empty, which
only happens when every value is null, in which case the fill value is itself
null and the column is unchanged). -/
def fillMissingStreamCategorical (vals : List (Option String)) : List (Option String) :=
  if vals.any (fun v => v.isNone) then
    match pandasModeStr (vals.filterMap id) with
    | none => vals
    | some m => vals.map (fun v => some (v.getD m))
  else vals

-- Sanity checks.
example : leFitClasses ["b", "b", "a"] = ["a", "b"] := by decide
example : pandasModeStr ["b", "b", "a"] = some "b" := by decide
example : encodeWithSavedEncoder ["a", "b"] ["z", "b"] = Except.ok [0, 1] := by rfl
example : freshFitTransform ["b"] = [0] ∧ freshFitTransform ["a", "b"] = [0, 1] := by decide

/-!
Schema profiling and the training-time column drops
(_detect_primary_keys, preprocess_data).
-/

/-- Pandas storage dtype of a column, as far as the profiling code inspects
it: _analyze_columns tests dtype == object, _detect_primary_keys tests
dtype in [int64, object]. -/
inductive Dtype where
  | int64 : Dtype
  | float64 : Dtype
  | object : Dtype
deriving DecidableEq, Repr

/-- One dataset column: its name, pandas dtype, and cell values (rendered as
strings; only distinctness matters to the profiling code). -/
structure Column where
  name : String
  dtype : Dtype
  values : List String
deriving DecidableEq, Repr

/-- A dataset: its columns and its row count (len(self.data)). -/
structure DataFrame where
  cols : List Column
  nrows : ℕ
deriving DecidableEq, Repr

/-- Embedding of Series.nunique(): the number of distinct values. -/
def nunique (c : Column) : ℕ := c.values.dedup.length

/-- Embedding of _detect_primary_keys (lines 161-169): a column is recorded as
a primary key when its number of distinct values equals the row count AND its
dtype is int64 or object. -/
def detectPrimaryKeys (df : DataFrame) : List String :=
  (df.cols.filter (fun c =>
    nunique c == df.nrows && (c.dtype == Dtype.int64 || c.dtype == Dtype.object))).map
    (fun c => c.name)

/-- Embedding of the column-drop steps of preprocess_data (lines 694-713):
drop the primary keys, then the high-cardinality columns not already dropped
as primary keys, then the low-variance columns other than the label column.
The pk, hc and lv arguments are the lists the profiling phase recorded. -/
def dropForTraining (pk hc lv : List String) (label : Option String)
    (cols : List String) : List String :=
  let s1 := cols.filter (fun c => decide (c ∉ pk))
  let hcToRemove := hc.filter (fun c => decide (c ∉ pk))
  let s2 := s1.filter (fun c => decide (c ∉ hcToRemove))
  let lvToRemove := lv.filter (fun c => decide (label ≠ some c))
  s2.filter (fun c => decide (c ∉ lvToRemove))

/-- Dataset with a float64 column whose values are pairwise distinct. -/
def floatIdFrame : DataFrame :=
  { cols := [{ name := "x", dtype := Dtype.float64, values := ["0.5", "1.5"] }]
    nrows := 2 }

-- Sanity checks.
example : detectPrimaryKeys floatIdFrame = [] := by decide
example :
    detectPrimaryKeys { cols := [{ name := "id", dtype := Dtype.int64, values := ["1", "2"] }],
                        nrows := 2 } = ["id"] := by decide
example : dropForTraining ["id"] ["city"] ["z"] (some "label") ["id", "city", "z", "v", "label"]
    = ["v", "label"] := by decide

/-!
The stream-inference pipeline at the level of column bookkeeping
(preprocess_stream_data, _standardize_numerical_features_stream,
predict_stream).

The loaded state carries the column classification lists restored by
load_model, together with the shape information of the fitted scaler and
model: a StandardScaler fit on k feature columns raises ValueError from
transform when handed a matrix with a different number of columns, and
IsolationForest.predict does the same.  These are the only checks the code
performs when a training-time column is absent from a stream batch: the
per-step list comprehensions (lines 980, 987, 995, 1034, 1063) all silently
skip columns that are not present.
-/

/-- The preprocessing state a loaded model carries, as restored by load_model
(lines 924-942), plus the feature counts baked into the fitted scaler and
IsolationForest. -/
structure StreamState where
  primaryKeys : List String
  categoricalColumns : List String
  numericalColumns : List String
  highCardinalityColumns : List String
  lowVarianceColumns : List String
  labelColumn : Option String
  scalerFitCols : List String
  modelFeatureCount : ℕ
deriving DecidableEq, Repr

/-- Whether a column name is removed by the drop steps of
preprocess_stream_data (lines 978-999): primary keys, high-cardinality
columns not among the primary keys, and low-variance columns other than the
label.  The identical predicate governs the fit-time drops of
preprocess_data. -/
def droppedByStream (st : StreamState) (c : String) : Bool :=
  decide (c ∈ st.primaryKeys)
    || (decide (c ∈ st.highCardinalityColumns) && !decide (c ∈ st.primaryKeys))
    || (decide (c ∈ st.lowVarianceColumns) && decide (st.labelColumn ≠ some c))

/-- The column list of a batch after the drop steps of preprocess_stream_data. -/
def dropStreamColumns (st : StreamState) (cols : List String) : List String :=
  cols.filter (fun c => !droppedByStream st c)

/-- The columns handed to the scaler: the columns surviving the drops that are
numerical and not the label (line 1063 for the stream path; lines 761-762 fit
the scaler over the same selection of the training frame). -/
def scalingColumns (st : StreamState) (cols : List String) : List String :=
  (dropStreamColumns st cols).filter
    (fun c => decide (c ∈ st.numericalColumns) && decide (st.labelColumn ≠ some c))

/-- Message of the ValueError sklearn raises on a feature-count mismatch. -/
def scalerErrMsg (got expected : ℕ) : String :=
  "X has " ++ toString got ++ " features, but StandardScaler is expecting "
    ++ toString expected ++ " features as input."

/-- Message of the ValueError IsolationForest raises on a feature-count
mismatch. -/
def modelErrMsg (got expected : ℕ) : String :=
  "X has " ++ toString got ++ " features, but IsolationForest is expecting "
    ++ toString expected ++ " features as input."

/-- Embedding of preprocess_stream_data (lines 962-1011) restricted to its
effect on the column list: drop columns, then (imputation and encoding touch
only columns that are present and never fail on names) standardize, which
raises sklearn's ValueError when the number of numerical columns present
differs from the number the scaler was fit on.  The scaler step is skipped
entirely when no numerical column is present (line 1066). -/
def preprocessStreamCols (st : StreamState) (batch : List String) :
    Except PyError (List String) :=
  let dropped := dropStreamColumns st batch
  let numCols := scalingColumns st batch
  if numCols.isEmpty then Except.ok dropped
  else if numCols.length = st.scalerFitCols.length then Except.ok dropped
  else Except.error (PyError.valueError (scalerErrMsg numCols.length st.scalerFitCols.length))

/-- Embedding of predict_stream (lines 1070-1130) restricted to column
bookkeeping: preprocess the batch, drop the label column if present, then run
the model, which raises sklearn's ValueError when the remaining column count
differs from the feature count the model was fit on. -/
def predictStreamCols (st : StreamState) (batch : List String) :
    Except PyError (List String) :=
  match preprocessStreamCols st batch with
  | Except.error e => Except.error e
  | Except.ok processed =>
    let features :=
      match st.labelColumn with
      | some l => if l ∈ processed then processed.filter (fun c => decide (c ≠ l)) else processed
      | none => processed
    if features.length = st.modelFeatureCount then Except.ok features
    else Except.error (PyError.valueError (modelErrMsg features.length st.modelFeatureCount))

/-- A loaded state fit on two numerical feature columns. -/
def twoNumericState : StreamState :=
  { primaryKeys := []
    categoricalColumns := []
    numericalColumns := ["amount", "age"]
    highCardinalityColumns := []
    lowVarianceColumns := []
    labelColumn := none
    scalerFitCols := ["amount", "age"]
    modelFeatureCount := 2 }

-- Sanity checks.
example : predictStreamCols twoNumericState ["amount", "age"] = Except.ok ["amount", "age"] := by
  rfl
example : predictStreamCols twoNumericState ["amount"] =
    Except.error (PyError.valueError (scalerErrMsg 1 2)) := by rfl

/-!
Persistence: save_model / load_model.
-/

/-- The model_metadata dictionary save_model embeds (lines 892-897). -/
structure ModelMetadata where
  timestamp : String
  version : String
  algorithm : String
  predictionMode : String
deriving DecidableEq, Repr

/-- The model package save_model serializes (lines 872-898).  Fitted model
objects are abstracted to their contamination keys and score-relevant shape;
encoders and scaler to their fitted state.  The package holds no copy of the
training dataset and no training-score statistics. -/
structure ModelPackage where
  modelContaminations : List ℚ
  scalerFitCols : List String
  labelEncoders : List (String × List String)
  labelColumn : Option String
  isSupervised : Bool
  useLabelsForTraining : Bool
  primaryKeys : List String
  categoricalColumns : List String
  numericalColumns : List String
  highCardinalityColumns : List String
  lowVarianceColumns : List String
  useRiskScoreThreshold : Bool
  riskScoreThreshold : Option ℚ
  contaminationLevels : List ℚ
  nEstimators : ℕ
  bootstrap : Bool
  randomState : ℕ
  metadata : ModelMetadata
deriving DecidableEq, Repr

/-- The detector attributes after a successful load (lines 924-945). -/
structure LoadedDetector where
  package : ModelPackage
  modelLoaded : Bool
  modelSavePath : Option String
deriving DecidableEq, Repr

/-- Attribute restoration performed by load_model on a successfully
deserialized package (lines 924-945): every field is copied verbatim and
model_loaded is set; nothing in the package is inspected or validated. -/
def restoreFromPackage (pkg : ModelPackage) (path : String) : LoadedDetector :=
  { package := pkg, modelLoaded := true, modelSavePath := some path }

/-- Embedding of load_model (lines 909-960) over a filesystem modelled as an
association list from path to stored package: a missing path raises
FileNotFoundError (line 917); any package that deserializes is restored
unconditionally, with no examination of its metadata version tag. -/
def loadModel (fs : List (String × ModelPackage)) (path : String) :
    Except PyError LoadedDetector :=
  match fs.lookup path with
  | none => Except.error (PyError.fileNotFoundError ("Model file not found: " ++ path))
  | some pkg => Except.ok (restoreFromPackage pkg path)

/-- A package whose metadata carries a version tag different from the "1.0.0"
that save_model writes. -/
def staleVersionPackage : ModelPackage :=
  { modelContaminations := [1/10]
    scalerFitCols := ["amount", "age"]
    labelEncoders := []
    labelColumn := none
    isSupervised := false
    useLabelsForTraining := true
    primaryKeys := []
    categoricalColumns := []
    numericalColumns := ["amount", "age"]
    highCardinalityColumns := []
    lowVarianceColumns := []
    useRiskScoreThreshold := true
    riskScoreThreshold := some (1/2)
    contaminationLevels := [1/100, 1/20, 1/10]
    nEstimators := 100
    bootstrap := false
    randomState := 42
    metadata := { timestamp := "2020-01-01T00:00:00"
                  version := "0.0.1"
                  algorithm := "IsolationForest"
                  predictionMode := "batch_training" } }

-- Sanity checks.
example : loadModel [("m.joblib", staleVersionPackage)] "missing.joblib" =
    Except.error (PyError.fileNotFoundError "Model file not found: missing.joblib") := by rfl
example : loadModel [("m.joblib", staleVersionPackage)] "m.joblib" =
    Except.ok (restoreFromPackage staleVersionPackage "m.joblib") := by rfl

/-!
Helper lemmas.
-/

lemma foldl_min_le_init (l : List ℚ) : ∀ a : ℚ, l.foldl min a ≤ a := by
  induction l with
  | nil => intro a; simp
  | cons b t ih =>
    intro a
    calc (b :: t).foldl min a = t.foldl min (min a b) := by simp [List.foldl]
    _ ≤ min a b := ih (min a b)
    _ ≤ a := min_le_left a b

lemma foldl_min_le_mem (l : List ℚ) : ∀ (a x : ℚ), x ∈ l → l.foldl min a ≤ x := by
  induction l with
  | nil => intro a x hx; simp at hx
  | cons b t ih =>
    intro a x hx
    rcases List.mem_cons.mp hx with h | h
    · subst h
      calc (x :: t).foldl min a = t.foldl min (min a x) := by simp [List.foldl]
      _ ≤ min a x := foldl_min_le_init t (min a x)
      _ ≤ x := min_le_right a x
    · exact ih (min a b) x h

lemma le_foldl_min (l : List ℚ) : ∀ (a m : ℚ), m ≤ a → (∀ x ∈ l, m ≤ x) →
    m ≤ l.foldl min a := by
  induction l with
  | nil => intro a m hm _; simpa using hm
  | cons b t ih =>
    intro a m hm hall
    have hb : m ≤ b := hall b (List.mem_cons_self b t)
    have : m ≤ min a b := le_min hm hb
    simpa [List.foldl] using ih (min a b) m this (fun x hx => hall x (List.mem_cons_of_mem b hx))

lemma init_le_foldl_max (l : List ℚ) : ∀ a : ℚ, a ≤ l.foldl max a := by
  induction l with
  | nil => intro a; simp
  | cons b t ih =>
    intro a
    calc a ≤ max a b := le_max_left a b
    _ ≤ t.foldl max (max a b) := ih (max a b)
    _ = (b :: t).foldl max a := by simp [List.foldl]

lemma mem_le_foldl_max (l : List ℚ) : ∀ (a x : ℚ), x ∈ l → x ≤ l.foldl max a := by
  induction l with
  | nil => intro a x hx; simp at hx
  | cons b t ih =>
    intro a x hx
    rcases List.mem_cons.mp hx with h | h
    · subst h
      calc x ≤ max a x := le_max_right a x
      _ ≤ t.foldl max (max a x) := init_le_foldl_max t (max a x)
      _ = (x :: t).foldl max a := by simp [List.foldl]
    · exact ih (max a b) x h

lemma foldl_max_le (l : List ℚ) : ∀ (a m : ℚ), a ≤ m → (∀ x ∈ l, x ≤ m) →
    l.foldl max a ≤ m := by
  induction l with
  | nil => intro a m hm _; simpa using hm
  | cons b t ih =>
    intro a m hm hall
    have hb : b ≤ m := hall b (List.mem_cons_self b t)
    have : max a b ≤ m := max_le hm hb
    simpa [List.foldl] using ih (max a b) m this (fun x hx => hall x (List.mem_cons_of_mem b hx))

lemma listMin_le {l : List ℚ} {x : ℚ} (hx : x ∈ l) : listMin l ≤ x :=
  foldl_min_le_mem l (l.headD 0) x hx

lemma le_listMax {l : List ℚ} {x : ℚ} (hx : x ∈ l) : x ≤ listMax l :=
  mem_le_foldl_max l (l.headD 0) x hx

lemma listMin_const {l : List ℚ} {c : ℚ} (hne : l ≠ []) (hall : ∀ x ∈ l, x = c) :
    listMin l = c := by
  cases l with
  | nil => exact absurd rfl hne
  | cons a t =>
    have ha : a = c := hall a (List.mem_cons_self a t)
    have h1 : listMin (a :: t) ≤ c := listMin_le (by simp [ha])
    have h2 : c ≤ listMin (a :: t) := by
      refine le_foldl_min (a :: t) ((a :: t).headD 0) c ?_ ?_
      · simp [ha]
      · intro x hx; exact le_of_eq (hall x hx).symm
    exact le_antisymm h1 h2

lemma listMax_const {l : List ℚ} {c : ℚ} (hne : l ≠ []) (hall : ∀ x ∈ l, x = c) :
    listMax l = c := by
  cases l with
  | nil => exact absurd rfl hne
  | cons a t =>
    have ha : a = c := hall a (List.mem_cons_self a t)
    have h1 : c ≤ listMax (a :: t) := le_listMax (by simp [ha])
    have h2 : listMax (a :: t) ≤ c := by
      refine foldl_max_le (a :: t) ((a :: t).headD 0) c ?_ ?_
      · simp [ha]
      · intro x hx; exact le_of_eq (hall x hx)
    exact le_antisymm h2 h1

lemma npGe_mono {r : NpFloat} {t1 t2 : ℚ} (h : t1 ≤ t2) (hr : npGe r t2 = true) :
    npGe r t1 = true := by
  cases r with
  | val q => simp only [npGe, decide_eq_true_eq] at hr ⊢; exact le_trans h hr
  | inf => simp [npGe]
  | nan => simp [npGe] at hr
  | ninf => simp [npGe] at hr

lemma count_true_map (l : List NpFloat) (f : NpFloat → Bool) :
    (l.map f).count true = l.countP f := by
  induction l with
  | nil => simp
  | cons a t ih =>
    by_cases h : f a = true <;>
      simp [List.count_cons, List.countP_cons, h, ih]

lemma indexOf?_of_mem {l : List String} {v : String} (h : v ∈ l) :
    l.indexOf? v = some (l.indexOf v) := by
  induction l with
  | nil => simp at h
  | cons a t ih =>
    by_cases hav : a = v
    · subst hav
      simp [List.indexOf?_cons, List.indexOf_cons_self]
    · have hvt : v ∈ t := by
        rcases List.mem_cons.mp h with h1 | h1
        · exact absurd h1.symm hav
        · exact h1
      have hne : (a == v) = false := beq_eq_false_iff_ne.mpr hav
      rw [List.indexOf?_cons, List.indexOf_cons_ne _ hav, ih hvt]
      simp [hne]

lemma headD_mem {l : List String} (h : l ≠ []) (d : String) : l.headD d ∈ l := by
  cases l with
  | nil => exact absurd rfl h
  | cons a t => simp

lemma indexOf_headD {l : List String} (h : l ≠ []) (d : String) :
    l.indexOf (l.headD d) = 0 := by
  cases l with
  | nil => exact absurd rfl h
  | cons a t => simp [List.indexOf_cons_self]

/-- With a nonempty fitted vocabulary the stream encoding never fails: values
in the vocabulary keep their fitted index and every other value gets index 0,
the index of classes_[0]. -/
lemma encodeWithSavedEncoder_eq (classes : List String) (hcl : classes ≠ [])
    (vals : List String) :
    encodeWithSavedEncoder classes vals =
      Except.ok (vals.map (fun v => if v ∈ classes then classes.indexOf v else 0)) := by
  induction vals with
  | nil => simp [encodeWithSavedEncoder, replaceUnknown, leTransformList]
  | cons v vs ih =>
    have hstep : replaceUnknown classes (v :: vs)
        = (if v ∈ classes then v else classes.headD v) :: replaceUnknown classes vs := by
      simp [replaceUnknown]
    have htail := ih
    simp only [encodeWithSavedEncoder] at htail ⊢
    rw [hstep]
    by_cases hv : v ∈ classes
    · simp only [if_pos hv, leTransformList, indexOf?_of_mem hv, htail]
      simp [hv]
    · have hhead : classes.headD v ∈ classes := headD_mem hcl v
      simp only [if_neg hv, leTransformList, indexOf?_of_mem hhead,
        indexOf_headD hcl v, htail]
      simp [hv]

lemma length_lt_of_nodup_subset {P F : List String} (hP : P.Nodup) (hF : F.Nodup)
    (hsub : ∀ c ∈ P, c ∈ F) (c₀ : String) (hc₀F : c₀ ∈ F) (hc₀P : c₀ ∉ P) :
    P.length < F.length := by
  have hsubF : P.toFinset ⊆ F.toFinset := by
    intro x hx
    exact List.mem_toFinset.mpr (hsub x (List.mem_toFinset.mp hx))
  have hss : P.toFinset ⊂ F.toFinset := by
    refine (Finset.ssubset_iff_of_subset hsubF).mpr ?_
    exact ⟨c₀, List.mem_toFinset.mpr hc₀F, fun hc => hc₀P (List.mem_toFinset.mp hc)⟩
  have := Finset.card_lt_card hss
  rwa [List.toFinset_card_of_nodup hP, List.toFinset_card_of_nodup hF] at this

lemma minMaxNormalize_nan {scores : List ℚ} {c : ℚ} (hne : scores ≠ [])
    (hall : ∀ s ∈ scores, s = c) : ∀ r ∈ minMaxNormalize scores, r = NpFloat.nan := by
  intro r hr
  rcases List.mem_map.mp hr with ⟨s, hs, rfl⟩
  rw [listMin_const hne hall, listMax_const hne hall, hall s hs]
  simp [npDiv]

/-!
Claim theorems.
-/

/-- Claim C1 (code bug): the claim states that stream-batch missing values are
imputed with the mode/median captured from the training data at fit time, as
the code's own comments at lines 1018 and 1027 also assert; the code instead
recomputes the statistics from the inference batch.  Evaluating the embedded
_handle_missing_values_stream on the failing input: a stream column with
values [1, null, 1] is filled with 1, the batch median, although the training
column [5, 5, 5] has fit-time median 5 (which save_model never persisted). -/
theorem stream_imputation_recomputes_batch_median :
    fillMissingStreamNumeric [some 1, none, some 1] = [some 1, some 1, some 1]
    ∧ pandasMedian [5, 5, 5] = some 5
    ∧ (1 : ℚ) ≠ 5 := by
  refine ⟨?_, ?_, by norm_num⟩
  · simp [fillMissingStreamNumeric, pandasMedian, List.insertionSort, List.orderedInsert]
  · simp [pandasMedian, List.insertionSort, List.orderedInsert]

/-- Claim C2, counterexample: predict_stream's risk score is not the claimed
normalization by the training-time observed score range.  With training-time
scores [0, 1] (so min_score = 0, max_score = 1) and inference batch scores
[0, 1, 2], the code assigns the row with raw score 1 the risk 1/2 (it
normalizes by the batch's own min and max), while the claimed clamped
training-range formula gives 0. -/
theorem predict_stream_risk_not_training_normalized :
    (minMaxNormalize [0, 1, 2]).getD 1 NpFloat.nan
      ≠ NpFloat.val (riskScoreSpecClamped (listMin [0, 1]) (listMax [0, 1]) 1) := by
  simp [minMaxNormalize, listMin, listMax, npDiv, riskScoreSpecClamped]
  norm_num

/-- Claim C2 as amended: predict_stream normalizes by the min and max of the
batch's own scores, so whenever the batch contains at least two distinct
scores every risk score is a finite value in [0, 1]; no clamping occurs and
no training-time statistics are involved (none are persisted). -/
theorem predict_stream_risk_scores_in_unit_interval (scores : List ℚ)
    (h : listMin scores ≠ listMax scores) :
    ∀ r ∈ minMaxNormalize scores, ∃ q : ℚ, r = NpFloat.val q ∧ 0 ≤ q ∧ q ≤ 1 := by
  intro r hr
  rcases List.mem_map.mp hr with ⟨s, hs, rfl⟩
  have h1 : listMin scores ≤ s := listMin_le hs
  have h2 : s ≤ listMax scores := le_listMax hs
  have hlt : listMin scores < listMax scores := lt_of_le_of_ne (le_trans h1 h2) h
  have hden : (0 : ℚ) < listMax scores - listMin scores := by linarith
  refine ⟨(listMax scores - s) / (listMax scores - listMin scores), ?_, ?_, ?_⟩
  · simp [npDiv, ne_of_gt hden]
  · exact div_nonneg (by linarith) (le_of_lt hden)
  · exact (div_le_one hden).mpr (by linarith)

/-- Witness for the amended C2 theorem: the first risk score of the batch
[0, 1]. -/
theorem predict_stream_risk_scores_in_unit_interval_witness :
    ∃ q : ℚ, NpFloat.val 1 = NpFloat.val q ∧ 0 ≤ q ∧ q ≤ 1 :=
  predict_stream_risk_scores_in_unit_interval [0, 1] (by decide) (NpFloat.val 1)
    (by simp [minMaxNormalize, listMin, listMax, npDiv])

/-- Claim C3, counterexample: a stream batch from which the retained
numerical column "age" is entirely absent does not produce a dedicated
schema-mismatch error naming the column; the failure is sklearn's generic
feature-count ValueError raised by the scaler (the code defines no
SchemaMismatchError, and its per-step column selections silently skip absent
columns). -/
theorem predict_stream_missing_column_value_error :
    predictStreamCols twoNumericState ["amount"] =
      Except.error (PyError.valueError (scalerErrMsg 1 2)) := by rfl

/-- Claim C3 as amended: when at least one column the scaler was fit on is
absent from the batch while at least one of them is present, predict_stream
fails with sklearn's feature-count ValueError from StandardScaler.transform,
which reports feature counts rather than naming the missing columns. -/
theorem predict_stream_missing_numeric_column_fails
    (st : StreamState) (trainCols batch : List String)
    (hfit : st.scalerFitCols = scalingColumns st trainCols)
    (htrain : trainCols.Nodup) (hbatch : batch.Nodup)
    (hnum : ∀ c ∈ st.numericalColumns, c ∈ trainCols)
    (hmiss : ∃ c ∈ st.scalerFitCols, c ∉ batch)
    (hpres : scalingColumns st batch ≠ []) :
    predictStreamCols st batch =
      Except.error (PyError.valueError
        (scalerErrMsg (scalingColumns st batch).length st.scalerFitCols.length)) := by
  obtain ⟨c₀, hc₀F, hc₀B⟩ := hmiss
  have hsub : ∀ c ∈ scalingColumns st batch, c ∈ st.scalerFitCols := by
    intro c hc
    rw [hfit]
    simp only [scalingColumns, dropStreamColumns, List.mem_filter, Bool.and_eq_true,
      decide_eq_true_eq] at hc ⊢
    exact ⟨⟨hnum c hc.2.1, hc.1.2⟩, hc.2⟩
  have hPnd : (scalingColumns st batch).Nodup := (hbatch.filter _).filter _
  have hFnd : st.scalerFitCols.Nodup := by
    rw [hfit]; exact (htrain.filter _).filter _
  have hc₀P : c₀ ∉ scalingColumns st batch := by
    intro hc
    apply hc₀B
    simp only [scalingColumns, dropStreamColumns, List.mem_filter] at hc
    exact hc.1.1
  have hlt : (scalingColumns st batch).length < st.scalerFitCols.length :=
    length_lt_of_nodup_subset hPnd hFnd hsub c₀ hc₀F hc₀P
  have hne : (scalingColumns st batch).length ≠ st.scalerFitCols.length := Nat.ne_of_lt hlt
  have hempty : (scalingColumns st batch).isEmpty = false := by
    cases hP : scalingColumns st batch with
    | nil => exact absurd hP hpres
    | cons a t => simp
  have hpre : preprocessStreamCols st batch =
      Except.error (PyError.valueError
        (scalerErrMsg (scalingColumns st batch).length st.scalerFitCols.length)) := by
    simp [preprocessStreamCols, hempty, hne]
  simp [predictStreamCols, hpre]

/-- Witness for the amended C3 theorem: a batch presenting only "age" while
the scaler was fit on "amount" and "age". -/
theorem predict_stream_missing_numeric_column_fails_witness :
    predictStreamCols twoNumericState ["age"] =
      Except.error (PyError.valueError
        (scalerErrMsg (scalingColumns twoNumericState ["age"]).length
          twoNumericState.scalerFitCols.length)) :=
  predict_stream_missing_numeric_column_fails twoNumericState ["amount", "age"] ["age"]
    (by decide) (by decide) (by decide) (by decide)
    ⟨"amount", by decide, by decide⟩ (by decide)

/-- Claim C4, counterexample: the unseen-category fallback index 0 is not the
most-frequent-category index.  An encoder fit on ["b", "b", "a"] has sorted
classes ["a", "b"]; the unseen value "z" is encoded to 0, but the most
frequent training category "b" sits at index 1 (sklearn sorts classes
alphabetically, it does not order them by frequency). -/
theorem unseen_category_not_most_frequent_index :
    encodeWithSavedEncoder (leFitClasses ["b", "b", "a"]) ["z"] = Except.ok [0]
    ∧ pandasModeStr ["b", "b", "a"] = some "b"
    ∧ (leFitClasses ["b", "b", "a"]).indexOf "b" = 1 := by
  exact ⟨by rfl, by decide, by decide⟩

/-- Claim C4 as amended: applying the stream preprocessing to a batch with
values unseen at fit time never raises; a value in the fitted vocabulary
keeps its fitted index and every unseen value is encoded to index 0, the
index of classes_[0], which is the alphabetically first training category
(not necessarily the most frequent one). -/
theorem stream_encode_unseen_to_index_zero
    (encoders : List (String × List String)) (col : String) (classes : List String)
    (vals : List String) (hlookup : encoders.lookup col = some classes)
    (hcl : classes ≠ []) :
    encodeStreamColumn encoders col vals =
      Except.ok (vals.map (fun v => if v ∈ classes then classes.indexOf v else 0)) := by
  simp only [encodeStreamColumn, hlookup]
  exact encodeWithSavedEncoder_eq classes hcl vals

/-- Witness for the amended C4 theorem. -/
theorem stream_encode_unseen_to_index_zero_witness :
    encodeStreamColumn [("city", ["a", "b"])] "city" ["z", "b"] =
      Except.ok (["z", "b"].map (fun v => if v ∈ ["a", "b"] then ["a", "b"].indexOf v else 0)) :=
  stream_encode_unseen_to_index_zero [("city", ["a", "b"])] "city" ["a", "b"] ["z", "b"]
    (by decide) (by decide)

/-- Claim C5, counterexample: when all batch scores are equal the code does
not define the risk score as 0.0; the normalization divides zero by zero and
every risk score is NaN. -/
theorem degenerate_risk_scores_not_zero :
    ¬ ∀ r ∈ minMaxNormalize [3, 3], r = NpFloat.val 0 := by
  intro h
  have h3 : minMaxNormalize [3, 3] = [NpFloat.nan, NpFloat.nan] := by
    simp [minMaxNormalize, listMin, listMax, npDiv]
  rw [h3] at h
  exact absurd (h NpFloat.nan (by simp)) (by simp)

/-- Claim C5 as amended: when every score of a nonempty batch equals the same
value (max_score == min_score), the division 0/0 makes every risk score NaN
rather than 0.0; there is no crash, and since NaN compares False against any
threshold the risk-threshold policy flags no row.  No explicit warning is
surfaced (warnings are globally suppressed at module import, line 45). -/
theorem degenerate_scores_give_nan (scores : List ℚ) (c : ℚ) (hne : scores ≠ [])
    (hall : ∀ s ∈ scores, s = c) :
    (∀ r ∈ minMaxNormalize scores, r = NpFloat.nan)
    ∧ ∀ t : ℚ, flaggedCount t scores = 0 := by
  have hnan := minMaxNormalize_nan hne hall
  refine ⟨hnan, ?_⟩
  intro t
  unfold flaggedCount binaryPredictionsStream
  rw [if_pos rfl, count_true_map]
  apply List.countP_eq_zero.mpr
  intro r hr
  rw [hnan r hr]
  simp [npGe]

/-- Witness for the amended C5 theorem at the constant batch [3, 3]. -/
theorem degenerate_scores_give_nan_witness :
    (∀ r ∈ minMaxNormalize [3, 3], r = NpFloat.nan)
    ∧ ∀ t : ℚ, flaggedCount t [3, 3] = 0 :=
  degenerate_scores_give_nan [3, 3] 3 (by decide) (by decide)

/-- Claim C6: for every row, under the classic policy the verdict is True iff
the raw decision score is negative (line 1144), and under the risk-threshold
policy the verdict is True iff the row's batch-normalized risk score compares
greater than or equal to the stored threshold (lines 1147-1151); which rule
applies is decided solely by the use_risk_score_threshold flag. -/
theorem stream_policy_verdicts (t : ℚ) (scores : List ℚ) (i : ℕ)
    (hi : i < scores.length) :
    ((binaryPredictionsStream false t scores).getD i false = true ↔ scores.getD i 0 < 0)
    ∧ ((binaryPredictionsStream true t scores).getD i false = true
        ↔ npGe ((minMaxNormalize scores).getD i NpFloat.nan) t = true) := by
  have hlen : (minMaxNormalize scores).length = scores.length := by
    simp [minMaxNormalize]
  constructor
  · rw [binaryPredictionsStream]
    rw [if_neg (by simp)]
    rw [List.getD_eq_getElem _ _ (by simpa using hi), List.getD_eq_getElem _ _ hi]
    simp
  · rw [binaryPredictionsStream]
    rw [if_pos rfl]
    rw [List.getD_eq_getElem _ _ (by simpa [hlen] using hi),
      List.getD_eq_getElem _ _ (by simpa [hlen] using hi)]
    simp

/-- Witness for the C6 theorem at threshold 1/2, batch [-1, 2], row 0. -/
theorem stream_policy_verdicts_witness :
    ((binaryPredictionsStream false (1/2) [-1, 2]).getD 0 false = true
        ↔ ([(-1 : ℚ), 2]).getD 0 0 < 0)
    ∧ ((binaryPredictionsStream true (1/2) [-1, 2]).getD 0 false = true
        ↔ npGe ((minMaxNormalize [-1, 2]).getD 0 NpFloat.nan) (1/2) = true) :=
  stream_policy_verdicts (1/2) [-1, 2] 0 (by decide)

/-- Claim C7, counterexample: load_model performs no format-version
validation: a package whose stored metadata version differs from the "1.0.0"
that save_model writes is restored successfully rather than rejected with a
version-mismatch failure (no such error kind exists in the code). -/
theorem load_model_ignores_version :
    loadModel [("model.joblib", staleVersionPackage)] "model.joblib"
      = Except.ok (restoreFromPackage staleVersionPackage "model.joblib")
    ∧ staleVersionPackage.metadata.version ≠ "1.0.0" :=
  ⟨rfl, by decide⟩

/-- Claim C7 as amended: load_model raises FileNotFoundError when the path
does not exist and otherwise restores any stored package unconditionally,
whatever its version tag; the package contains everything that is restored,
so loading needs no access to the training dataset. -/
theorem load_model_behavior (fs : List (String × ModelPackage)) (path : String) :
    (fs.lookup path = none →
      loadModel fs path =
        Except.error (PyError.fileNotFoundError ("Model file not found: " ++ path)))
    ∧ ∀ pkg : ModelPackage, fs.lookup path = some pkg →
        loadModel fs path = Except.ok (restoreFromPackage pkg path) := by
  constructor
  · intro h; simp [loadModel, h]
  · intro pkg h; simp [loadModel, h]

/-- Witness for the amended C7 theorem: a missing path raises
FileNotFoundError. -/
theorem load_model_behavior_witness :
    loadModel [("model.joblib", staleVersionPackage)] "nope" =
      Except.error (PyError.fileNotFoundError ("Model file not found: " ++ "nope")) :=
  (load_model_behavior [("model.joblib", staleVersionPackage)] "nope").1 (by decide)

/-- Claim C8: for a fixed score vector, raising the risk threshold never
increases the number of rows flagged anomalous: the flagged count at the
higher threshold is at most the count at the lower one. -/
theorem flagged_count_antitone (scores : List ℚ) (t1 t2 : ℚ) (h : t1 ≤ t2) :
    flaggedCount t2 scores ≤ flaggedCount t1 scores := by
  unfold flaggedCount binaryPredictionsStream
  rw [if_pos rfl, if_pos rfl, count_true_map, count_true_map]
  exact List.countP_mono_left (fun r _ hge => npGe_mono h hge)

/-- Witness for the C8 theorem at thresholds 0 and 1 on the batch [0, 1, 2]. -/
theorem flagged_count_antitone_witness :
    flaggedCount 1 [0, 1, 2] ≤ flaggedCount 0 [0, 1, 2] :=
  flagged_count_antitone [0, 1, 2] 0 1 (by decide)

/-- Claim C9, counterexample: primary-key detection is not an if-and-only-if
on distinct-count alone: a float64 column whose values are pairwise distinct
(nunique equals the row count) is not recorded as a primary key, because the
code additionally requires dtype int64 or object. -/
theorem float_id_column_not_primary_key :
    ¬ (("x" ∈ detectPrimaryKeys floatIdFrame) ↔
        nunique { name := "x", dtype := Dtype.float64, values := ["0.5", "1.5"] }
          = floatIdFrame.nrows) := by
  decide

/-- Claim C9 as amended: a column is recorded as a primary-key candidate iff
its number of distinct values equals the row count AND its dtype is int64 or
object; and every primary-key column, every high-cardinality column, and
every low-variance column other than the label is dropped from the processed
data before training. -/
theorem primary_key_detection_and_training_drops :
    (∀ (df : DataFrame) (name : String),
      name ∈ detectPrimaryKeys df ↔
        ∃ c ∈ df.cols, c.name = name ∧ nunique c = df.nrows
          ∧ (c.dtype = Dtype.int64 ∨ c.dtype = Dtype.object))
    ∧ ∀ (pk hc lv : List String) (label : Option String) (cols : List String) (c : String),
        (c ∈ pk ∨ c ∈ hc ∨ (c ∈ lv ∧ label ≠ some c)) →
          c ∉ dropForTraining pk hc lv label cols := by
  constructor
  · intro df name
    simp only [detectPrimaryKeys, List.mem_map, List.mem_filter, Bool.and_eq_true,
      Bool.or_eq_true, beq_iff_eq]
    constructor
    · rintro ⟨c, ⟨hcols, hprop⟩, hname⟩
      exact ⟨c, hcols, hname, hprop⟩
    · rintro ⟨c, hcols, hname, hprop⟩
      exact ⟨c, ⟨hcols, hprop⟩, hname⟩
  · intro pk hc lv label cols c hc'
    intro hmem
    simp only [dropForTraining, List.mem_filter, decide_eq_true_eq] at hmem
    obtain ⟨⟨⟨hcols, hnpk⟩, hnhc⟩, hnlv⟩ := hmem
    rcases hc' with h | h | ⟨h1, h2⟩
    · exact hnpk h
    · by_cases hpk : c ∈ pk
      · exact hnpk hpk
      · exact hnhc ⟨h, hpk⟩
    · exact hnlv ⟨h1, h2⟩

/-- Witness for the amended C9 theorem: the detected primary key "id" of a
two-row frame, and the drop of "id" from the training columns. -/
theorem primary_key_detection_and_training_drops_witness :
    ("id" ∈ detectPrimaryKeys
        { cols := [{ name := "id", dtype := Dtype.int64, values := ["1", "2"] }], nrows := 2 }
      ↔ ∃ c ∈ [({ name := "id", dtype := Dtype.int64, values := ["1", "2"] } : Column)],
          c.name = "id" ∧ nunique c = 2 ∧ (c.dtype = Dtype.int64 ∨ c.dtype = Dtype.object))
    ∧ "id" ∉ dropForTraining ["id"] [] [] none ["id", "v"] :=
  ⟨primary_key_detection_and_training_drops.1
      { cols := [{ name := "id", dtype := Dtype.int64, values := ["1", "2"] }], nrows := 2 } "id",
    primary_key_detection_and_training_drops.2 ["id"] [] [] none ["id", "v"] "id"
      (Or.inl (by decide))⟩

/-- Claim C10: a stream-batch categorical column with no saved encoder does
not raise; the code silently fits a brand-new label encoder on the batch's
own values and encodes with it, so the encoding depends on the batch
contents: the value "b" encodes to 0 in the batch ["b"] but to 1 in the batch
["a", "b"]. -/
theorem stream_encode_without_saved_encoder :
    (∀ (encoders : List (String × List String)) (col : String) (vals : List String),
      encoders.lookup col = none →
        encodeStreamColumn encoders col vals = Except.ok (freshFitTransform vals))
    ∧ freshFitTransform ["b"] = [0]
    ∧ freshFitTransform ["a", "b"] = [0, 1] := by
  refine ⟨?_, by decide, by decide⟩
  intro encoders col vals h
  simp [encodeStreamColumn, h]

/-- Witness for the C10 theorem. -/
theorem stream_encode_without_saved_encoder_witness :
    encodeStreamColumn [("country", ["x"])] "city" ["b"] =
      Except.ok (freshFitTransform ["b"]) :=
  stream_encode_without_saved_encoder.1 [("country", ["x"])] "city" ["b"] (by decide)
